import Mathlib

/-!
# Verification of the `alpaca_api` client against its specification

Shallow embedding of the repository's request handler
(`alpaca_api_request_handler.py`), market-data normalizers
(`alpaca_market_data_api.py`) and trading-side canonicalizers
(`alpaca_trading_api.py`), together with theorems settling the frozen
claims about the spec.

Modelling conventions:
* decoded JSON values are an inductive `Json`; Python `int` and `float`
  results of JSON decoding are kept distinct (`Json.int` / `Json.num`,
  the latter carrying a rational standing for the float value);
* Python exceptions are the inductive `PyErr`; fallible code returns
  `Except PyErr α`;
* a completed HTTP exchange is a `Response` (status code, decode result
  of `resp.json()`, raw body text); functions that perform one HTTP call
  take the `Response` as an argument, so quantifying over all responses
  expresses independence from the network;
* Python dicts are association lists in insertion order (JSON object
  keys are strings and decoding deduplicates keys).
-/

/-- A decoded JSON value as produced by Python's `json` decoder.
`int` is a Python `int`, `num` a Python `float` (value as a rational). -/
inductive Json where
  | null
  | bool (b : Bool)
  | int (n : ℤ)
  | num (q : ℚ)
  | str (s : String)
  | arr (xs : List Json)
  | obj (kvs : List (String × Json))

/-- The exceptions raised by the embedded code.  The top group embeds the
per-status taxonomy classes of `alpaca_api_request_handler.py`
(`BadRequestError` … `InternalServerError`, each carrying the response
body text, and `UnknownError` carrying its `message_body` string); the
bottom group embeds the local errors plus the builtin Python exceptions
the code can raise (`TypeError`, `KeyError`, `ValueError`,
`AttributeError`).  `invalidQuantity` and `invalidPayload` subclass
`TypeError` in the source; `invalidSort`, `invalidLimit` and
`insufficientCryptoQuantity` subclass `ValueError`. -/
inductive PyErr where
  | badRequestError (body : String)
  | unauthorizedError (body : String)
  | forbiddenError (body : String)
  | unprocessableEntityError (body : String)
  | rateLimitError (body : String)
  | internalServerError (body : String)
  | unknownError (body : String)
  | jsonResponseError
  | invalidSort (sortValue : String)
  | invalidLimit (limit : ℤ)
  | invalidQuantity
  | insufficientCryptoQuantity (minQty : ℚ)
  | invalidPayload
  | typeError
  | keyError
  | valueError
  | attributeError
deriving DecidableEq, Repr

/-- Python truthiness of a decoded JSON value (`if raw:` / `if not raw:`). -/
def Json.truthy : Json → Bool
  | .null => false
  | .bool b => b
  | .int n => n != 0
  | .num q => q != 0
  | .str s => s != ""
  | .arr xs => !xs.isEmpty
  | .obj kvs => !kvs.isEmpty

/-- `isinstance(v, dict)` on a decoded JSON value. -/
def Json.isObjB : Json → Bool
  | .obj _ => true
  | _ => false

/-- Key lookup in a decoded JSON object, as a pure observation used in
theorem statements (`none` when the key is absent or the value is not an
object). -/
def jlook (v : Json) (k : String) : Option Json :=
  match v with
  | .obj kvs => kvs.lookup k
  | _ => none

/-- Python `d[k]` on a decoded value: `KeyError` when the key is absent,
`TypeError` when `d` is not a dict (e.g. indexing a list with a string). -/
def jIndex (d : Json) (k : String) : Except PyErr Json :=
  match d with
  | .obj kvs =>
    match kvs.lookup k with
    | some v => .ok v
    | none => .error .keyError
  | _ => .error .typeError

/-- Python `d.get(k)` with `None` for a missing key; `AttributeError`
when `d` is not a dict. -/
def pyGet (d : Json) (k : String) : Except PyErr Json :=
  match d with
  | .obj kvs => .ok ((kvs.lookup k).getD .null)
  | _ => .error .attributeError

/-- Python `d.get(k, default)`; `AttributeError` when `d` is not a dict. -/
def pyGetD (d : Json) (k : String) (dflt : Json) : Except PyErr Json :=
  match d with
  | .obj kvs => .ok ((kvs.lookup k).getD dflt)
  | _ => .error .attributeError

/-- Python `d.items()`; `AttributeError` when `d` is not a dict. -/
def jItems (d : Json) : Except PyErr (List (String × Json)) :=
  match d with
  | .obj kvs => .ok kvs
  | _ => .error .attributeError

/-- A Python `for`-loop that appends `f x` for each element in order,
stopping at the first raised exception. -/
def forList (f : α → Except PyErr β) : List α → Except PyErr (List β)
  | [] => .ok []
  | a :: t => do
    let b ← f a
    let bs ← forList f t
    .ok (b :: bs)

/-- `isinstance(e, (TypeError, KeyError))`: the errors caught by the
normalizers' `except (TypeError, KeyError)` clauses.  `invalidPayload`
(`InvalidAlpacaPayloadError`) and `invalidQuantity`
(`InvalidQuantityError`) subclass `TypeError` in the source. -/
def isTK : PyErr → Bool
  | .typeError => true
  | .keyError => true
  | .invalidPayload => true
  | .invalidQuantity => true
  | _ => false

/-- `try: e except (TypeError, KeyError): raise JsonResponseError()` —
the uniform re-raise at the boundary of every normalizer. -/
def catchTK (e : Except PyErr α) : Except PyErr α :=
  match e with
  | .ok a => .ok a
  | .error err => if isTK err then .error .jsonResponseError else .error err

/-- Whether a fallible computation completed without raising. -/
def exOk : Except PyErr α → Bool
  | .ok _ => true
  | .error _ => false

/-! ## Timestamps: `_parse_ts` and `datetime.fromisoformat` -/

/-- A `datetime.datetime` value: calendar fields plus an optional UTC
offset in minutes (`none` for a naive datetime). -/
structure Timestamp where
  year : ℕ
  month : ℕ
  day : ℕ
  hour : ℕ
  minute : ℕ
  second : ℕ
  microsecond : ℕ
  utc_offset_minutes : Option ℤ
deriving DecidableEq, Repr

/-- `value.replace("Z", "+00:00")` on the character list; the pattern is
a single character, so per-character expansion is exact. -/
def replaceZChars : List Char → List Char
  | [] => []
  | c :: t =>
    if c = 'Z' then '+' :: '0' :: '0' :: ':' :: '0' :: '0' :: replaceZChars t
    else c :: replaceZChars t

/-- `value.replace("Z", "+00:00")`. -/
def pyReplaceZ (s : String) : String := ⟨replaceZChars s.data⟩

/-- Read exactly `k` decimal digits, returning their value and the rest. -/
def readDigits : ℕ → ℕ → List Char → Option (ℕ × List Char)
  | 0, acc, l => some (acc, l)
  | k + 1, acc, l =>
    match l with
    | [] => none
    | c :: t =>
      if c.isDigit then readDigits k (acc * 10 + (c.toNat - 48)) t else none

/-- Gregorian leap year, as used by `datetime`'s calendar validation. -/
def isLeap (y : ℕ) : Bool := (y % 4 == 0 && y % 100 != 0) || y % 400 == 0

/-- Days in a month, validating the `day` field of an ISO date. -/
def daysInMonth (y m : ℕ) : ℕ :=
  if m = 2 then (if isLeap y then 29 else 28)
  else if m = 4 ∨ m = 6 ∨ m = 9 ∨ m = 11 then 30
  else 31

/-- Fractional-second part: `.` followed by one to six digits, scaled to
microseconds. -/
def readFraction (l : List Char) : Option (ℕ × List Char) :=
  match l with
  | '.' :: t =>
    let ds := t.takeWhile Char.isDigit
    if ds.length = 0 ∨ 6 < ds.length then none
    else
      let v := ds.foldl (fun acc c => acc * 10 + (c.toNat - 48)) 0
      some (v * 10 ^ (6 - ds.length), t.drop ds.length)
  | _ => some (0, l)

/-- UTC-offset tail `±HH:MM` (must consume the rest of the string), or
nothing for a naive datetime. -/
def readOffsetEnd (l : List Char) : Option (Option ℤ) :=
  match l with
  | [] => some none
  | c :: t =>
    if c = '+' ∨ c = '-' then
      match readDigits 2 0 t with
      | some (oh, ':' :: t2) =>
        match readDigits 2 0 t2 with
        | some (om, []) =>
          if oh ≤ 23 ∧ om ≤ 59 then
            some (some ((if c = '-' then -1 else 1) * (oh * 60 + om)))
          else none
        | _ => none
      | _ => none
    else none

/-- Time-of-day tail `HH[:MM[:SS[.ffffff]]][±HH:MM]` of an ISO string. -/
def readTimeTail (y mo d : ℕ) (l : List Char) : Option Timestamp := do
  let (hh, l1) ← readDigits 2 0 l
  let (mi, l2) ←
    match l1 with
    | ':' :: t => readDigits 2 0 t
    | _ => some (0, l1)
  let (ss, us, l3) ←
    match l2 with
    | ':' :: t => do
      let (s, t2) ← readDigits 2 0 t
      let (us, t3) ← readFraction t2
      some (s, us, t3)
    | _ => some (0, 0, l2)
  if hh ≤ 23 ∧ mi ≤ 59 ∧ ss ≤ 59 then
    let off ← readOffsetEnd l3
    some ⟨y, mo, d, hh, mi, ss, us, off⟩
  else none

/-- `datetime.fromisoformat`'s accepted shape
`YYYY-MM-DD[*HH[:MM[:SS[.ffffff]]][±HH:MM]]` (the separator `*` may be
any single character), with calendar and range validation. -/
def isoParse (s : String) : Option Timestamp := do
  let (y, l1) ← readDigits 4 0 s.data
  match l1 with
  | '-' :: l2 =>
    let (mo, l3) ← readDigits 2 0 l2
    match l3 with
    | '-' :: l4 =>
      let (d, l5) ← readDigits 2 0 l4
      if 1 ≤ y ∧ 1 ≤ mo ∧ mo ≤ 12 ∧ 1 ≤ d ∧ d ≤ daysInMonth y mo then
        match l5 with
        | [] => some ⟨y, mo, d, 0, 0, 0, 0, none⟩
        | _sep :: l6 => readTimeTail y mo d l6
      else none
    | _ => none
  | _ => none

/-- `datetime.fromisoformat(s)`: `ValueError` on a malformed string. -/
def fromisoformat (s : String) : Except PyErr Timestamp :=
  match isoParse s with
  | some t => .ok t
  | none => .error .valueError

/-- `_parse_ts` (`alpaca_market_data_api.py`): raises
`InvalidAlpacaPayloadError` unless the value is a string, then parses it
with `fromisoformat` after replacing `"Z"` by `"+00:00"`. -/
def parse_ts (v : Json) : Except PyErr Timestamp :=
  match v with
  | .str s => fromisoformat (pyReplaceZ s)
  | _ => .error .invalidPayload

/-! ## The type-strict field accessors `_req_str` / `_req_float` / `_req_int` -/

/-- `_req_str`: `d.get(key)` must be a `str`, else
`InvalidAlpacaPayloadError`; `AttributeError` if `d` is not a dict. -/
def req_str (d : Json) (k : String) : Except PyErr String :=
  match d with
  | .obj kvs =>
    match kvs.lookup k with
    | some (.str s) => .ok s
    | _ => .error .invalidPayload
  | _ => .error .attributeError

/-- `_req_float`: accepts `int` or `float` (Python `bool` is an `int`
subclass, so it passes as 1/0), coerced to float; else
`InvalidAlpacaPayloadError`. -/
def req_float (d : Json) (k : String) : Except PyErr ℚ :=
  match d with
  | .obj kvs =>
    match kvs.lookup k with
    | some (.int n) => .ok (n : ℚ)
    | some (.num q) => .ok q
    | some (.bool b) => .ok (if b then 1 else 0)
    | _ => .error .invalidPayload
  | _ => .error .attributeError

/-- `_req_int`: accepts an `int` (including `bool`), or a `float` with
no fractional part coerced to `int`; else `InvalidAlpacaPayloadError`.
(The source's stray `print(v)` has no modelled effect.) -/
def req_int (d : Json) (k : String) : Except PyErr ℤ :=
  match d with
  | .obj kvs =>
    match kvs.lookup k with
    | some (.int n) => .ok n
    | some (.bool b) => .ok (if b then 1 else 0)
    | some (.num q) => if q.den = 1 then .ok q.num else .error .invalidPayload
    | _ => .error .invalidPayload
  | _ => .error .attributeError

/-! ## Transport invoker: `_safe_json` and `alpaca_api_request` -/

/-- One completed HTTP exchange, as seen by the request handler:
the status code, the result of `resp.json()` (`error` when the body is
not decodable JSON), and the raw body text (never read by the code). -/
structure Response where
  status_code : ℕ
  json : Except Unit Json
  text : String

/-- `_safe_json`: decode failure or a non-object decode both raise
`JsonResponseError`; a decoded object is returned. -/
def safe_json (resp : Response) : Except PyErr Json :=
  match resp.json with
  | .error _ => .error .jsonResponseError
  | .ok parsed =>
    match parsed with
    | .obj kvs => .ok (.obj kvs)
    | _ => .error .jsonResponseError

/-- `alpaca_api_request`: status 200 → `_safe_json`; status 204 → empty
dict; any other status → `raise UnknownError(message_body=str(resp.status_code))`. -/
def alpaca_api_request (resp : Response) : Except PyErr Json :=
  if resp.status_code = 200 then safe_json resp
  else if resp.status_code = 204 then .ok (.obj [])
  else .error (.unknownError (toString resp.status_code))

/-! ## Market-data record types (`alpaca_market_data_classes.py`) -/

/-- The `Bar` dataclass.  `open` is a Lean keyword, hence `open_`. -/
structure Bar where
  datetime : Timestamp
  open_ : ℚ
  high : ℚ
  low : ℚ
  close : ℚ
  volume : ℤ
  number_of_trades : ℤ
  volume_weighted_average_price : ℚ
deriving DecidableEq, Repr

/-- One of the plain dicts built by `_parse_bars_list` and the
`get_latest_bars` loop (same keys and value types as `Bar`). -/
structure BarDict where
  timestamp : Timestamp
  open_ : ℚ
  high : ℚ
  low : ℚ
  close : ℚ
  volume : ℤ
  number_of_trades : ℤ
  volume_weighted_average_price : ℚ
deriving DecidableEq, Repr

/-- One of the plain dicts built by `_parse_crypto_bars_list`:
identical to `BarDict` except that `volume` is read with `_req_float`. -/
structure CryptoBarDict where
  timestamp : Timestamp
  open_ : ℚ
  high : ℚ
  low : ℚ
  close : ℚ
  volume : ℚ
  number_of_trades : ℤ
  volume_weighted_average_price : ℚ
deriving DecidableEq, Repr

/-- The `Trade` dataclass.  Its `condition_codes` field is annotated
`list[str]` in the source but the dataclass performs no runtime check
and `_parse_trade` copies the payload value unchecked, so the field
holds an arbitrary decoded JSON value here. -/
structure Trade where
  datetime : Timestamp
  exchange : String
  price : ℚ
  size : ℤ
  trade_id : ℤ
  condition_codes : Json
  timezone : String
  trade_update : String

/-- The `LatestBars` dataclass: both fields are required (no defaults). -/
structure LatestBars where
  bars : List (String × List BarDict)
  currency : String

/-- Keyword-call semantics of `LatestBars(...)`: a dataclass call with a
required field missing raises `TypeError`. -/
def LatestBars.init (bars : Option (List (String × List BarDict)))
    (currency : Option String) : Except PyErr LatestBars :=
  match bars, currency with
  | some b, some c => .ok ⟨b, c⟩
  | _, _ => .error .typeError

/-- The `HistoricalBars` dataclass: `bars`, `currency` and
`next_page_token` are all required (no defaults; `next_page_token` may
hold `None` but must be passed).  The `bars` annotation says
`dict[str, list[Bar]]`, but the normalizers actually store per symbol a
list of lists of plain dicts, so the field is typed by the parameter `β`
at each call site. -/
structure HistoricalBars (β : Type) where
  bars : List (String × List (List β))
  currency : String
  next_page_token : Option String

/-- Keyword-call semantics of `HistoricalBars(...)`. -/
def HistoricalBars.init (bars : Option (List (String × List (List β))))
    (currency : Option String) (npt : Option (Option String)) :
    Except PyErr (HistoricalBars β) :=
  match bars, currency, npt with
  | some b, some c, some n => .ok ⟨b, c, n⟩
  | _, _, _ => .error .typeError

/-! ## Market-data normalizers (`alpaca_market_data_api.py`) -/

/-- `_parse_bar`: the `Bar`-dataclass normalizer, with the accessors in
the source's keyword-argument evaluation order. -/
def parse_bar (raw : Json) : Except PyErr Bar := do
  let t ← req_str raw "t"
  let ts ← parse_ts (.str t)
  let o ← req_float raw "o"
  let h ← req_float raw "h"
  let l ← req_float raw "l"
  let c ← req_float raw "c"
  let v ← req_int raw "v"
  let n ← req_int raw "n"
  let vw ← req_float raw "vw"
  .ok ⟨ts, o, h, l, c, v, n, vw⟩

/-- The `trade_update` keyword expression of `_parse_trade`:
`self._req_str(raw, "u") if raw.get("u") else "N/A"`, with the already
evaluated `raw.get("u")` passed in. -/
def trade_update_of (raw : Json) (uVal : Json) : Except PyErr String :=
  if uVal.truthy then req_str raw "u" else .ok "N/A"

/-- `_parse_trade`: note `condition_codes=raw.get("c", [])` (no type
check) and `trade_update=self._req_str(raw, "u") if raw.get("u") else "N/A"`. -/
def parse_trade (raw : Json) : Except PyErr Trade := do
  let t ← req_str raw "t"
  let ts ← parse_ts (.str t)
  let x ← req_str raw "x"
  let p ← req_float raw "p"
  let s ← req_int raw "s"
  let i ← req_int raw "i"
  let c ← pyGetD raw "c" (.arr [])
  let z ← req_str raw "z"
  let uVal ← pyGet raw "u"
  let u ← trade_update_of raw uVal
  .ok ⟨ts, x, p, s, i, c, z, u⟩

/-- The body of the `for b in raw` loop of `_parse_bars_list`. -/
def parse_bar_entry (b : Json) : Except PyErr BarDict := do
  let t ← req_str b "t"
  let ts ← parse_ts (.str t)
  let o ← req_float b "o"
  let h ← req_float b "h"
  let l ← req_float b "l"
  let c ← req_float b "c"
  let v ← req_int b "v"
  let n ← req_int b "n"
  let vw ← req_float b "vw"
  .ok ⟨ts, o, h, l, c, v, n, vw⟩

/-- `_parse_bars_list`: `if not raw: return []`, then iterate.  Iterating
a truthy non-list raises: a number is not iterable (`TypeError`);
iterating a string yields single-character strings and a dict yields its
string keys, on which the first `.get` raises `AttributeError`. -/
def parse_bars_list (raw : Json) : Except PyErr (List BarDict) :=
  if raw.truthy = false then .ok []
  else
    match raw with
    | .arr bs => forList parse_bar_entry bs
    | .str _ => .error .attributeError
    | .obj _ => .error .attributeError
    | _ => .error .typeError

/-- The body of the `for b in raw` loop of `_parse_crypto_bars_list`
(volume is `_req_float` here). -/
def parse_crypto_bar_entry (b : Json) : Except PyErr CryptoBarDict := do
  let t ← req_str b "t"
  let ts ← parse_ts (.str t)
  let o ← req_float b "o"
  let h ← req_float b "h"
  let l ← req_float b "l"
  let c ← req_float b "c"
  let v ← req_float b "v"
  let n ← req_int b "n"
  let vw ← req_float b "vw"
  .ok ⟨ts, o, h, l, c, v, n, vw⟩

/-- `_parse_crypto_bars_list` (same falsy/iteration behaviour as
`_parse_bars_list`). -/
def parse_crypto_bars_list (raw : Json) : Except PyErr (List CryptoBarDict) :=
  if raw.truthy = false then .ok []
  else
    match raw with
    | .arr bs => forList parse_crypto_bar_entry bs
    | .str _ => .error .attributeError
    | .obj _ => .error .attributeError
    | _ => .error .typeError

/-- The symbol-keyed mapping built inside `get_historical_bars`'s `try`
block: `bars_by_symbol = data["bars"] if isinstance(data["bars"], dict)
else {}`, then per symbol `parsed_bars = []`,
`parsed_bars.append(self._parse_bars_list(list))`,
`parsed[symbol] = parsed_bars` — each symbol is mapped to a one-element
list containing the list of parsed records. -/
def historical_bars_parsed (data : Json) :
    Except PyErr (List (String × List (List BarDict))) := do
  let barsVal ← jIndex data "bars"
  let barsBySymbol := if barsVal.isObjB then barsVal else .obj []
  let kvs ← jItems barsBySymbol
  forList (fun sv => do
    let l ← parse_bars_list sv.2
    .ok (sv.1, [l])) kvs

/-- `get_historical_bars` after the HTTP call: the `try` block builds the
mapping, reads `next_page_token` with `_req_str`, and calls
`HistoricalBars(bars=parsed, next_page_token=...)` — without the required
`currency` argument. -/
def get_historical_bars (resp : Response) : Except PyErr (HistoricalBars BarDict) := do
  let data ← alpaca_api_request resp
  catchTK (do
    let parsed ← historical_bars_parsed data
    let npt ← req_str data "next_page_token"
    HistoricalBars.init (some parsed) none (some (some npt)))

/-- The body of the per-symbol loop of `get_latest_bars`: each symbol's
value is treated as a single bar object (`list.get("t")`, `_req_float(list, ...)`),
and the resulting dict is appended to a fresh one-element list. -/
def latest_bar_entry (sv : String × Json) : Except PyErr (String × List BarDict) := do
  let tVal ← pyGet sv.2 "t"
  let ts ← parse_ts tVal
  let o ← req_float sv.2 "o"
  let h ← req_float sv.2 "h"
  let l ← req_float sv.2 "l"
  let c ← req_float sv.2 "c"
  let v ← req_int sv.2 "v"
  let n ← req_int sv.2 "n"
  let vw ← req_float sv.2 "vw"
  .ok (sv.1, [⟨ts, o, h, l, c, v, n, vw⟩])

/-- `get_latest_bars`: after the parse loop the source calls
`LatestBars(bars=parsed)` without the required `currency` argument. -/
def get_latest_bars (resp : Response) : Except PyErr LatestBars := do
  let data ← alpaca_api_request resp
  catchTK (do
    let barsVal ← jIndex data "bars"
    let barsBySymbol := if barsVal.isObjB then barsVal else .obj []
    let kvs ← jItems barsBySymbol
    let parsed ← forList latest_bar_entry kvs
    LatestBars.init (some parsed) none)

/-- The body of the per-symbol loop of `crypto_get_historical_bars`:
`if not isinstance(bar_list_obj, list): raise InvalidAlpacaPayloadError`
— so a `None` (or any non-list) symbol value is a payload error here,
unlike the stock path — then
`parsed[symbol] = [self._parse_crypto_bars_list(bar_list_obj)]`. -/
def crypto_symbol_bars (sv : String × Json) :
    Except PyErr (String × List (List CryptoBarDict)) :=
  match sv.2 with
  | .arr xs => do
    let l ← parse_crypto_bars_list (.arr xs)
    .ok (sv.1, [l])
  | _ => .error .invalidPayload

/-- The `try`-block body of `crypto_get_historical_bars` after the HTTP
call: `data.get("bars")` must be a dict, each symbol's value is handled
by `crypto_symbol_bars`, and finally `HistoricalBars(bars=parsed)` is
called without the required `currency` and `next_page_token` arguments.
(The source's `isinstance(symbol, str)` check is vacuous here: object
keys are strings.) -/
def crypto_bars_fetch_parse (resp : Response) :
    Except PyErr (HistoricalBars CryptoBarDict) := do
  let data ← alpaca_api_request resp
  catchTK (do
    let barsRaw ← pyGet data "bars"
    match barsRaw with
    | .obj kvs => do
      let parsed ← forList crypto_symbol_bars kvs
      HistoricalBars.init (some parsed) none none
    | _ => .error .invalidPayload)

/-- `crypto_get_historical_bars`: `sort` must be `"asc"`/`"desc"`
(`InvalidSortParameterError` otherwise), a provided `limit` must lie in
`[CRYPTO_MIN_DATA_POINTS, CRYPTO_MAX_DATA_POINTS] = [1, 10000]`
(`InvalidLimitParameterError` otherwise), both checked before the HTTP
call; the remaining parameters (`loc`, `symbols`, `timeframe`, `start`,
`end`, `page_token`) only shape the request URL and query string, which
the `Response` argument abstracts. -/
def crypto_get_historical_bars (resp : Response) (limit : Option ℤ)
    (sort : String) : Except PyErr (HistoricalBars CryptoBarDict) :=
  if ¬(sort = "asc" ∨ sort = "desc") then .error (.invalidSort sort)
  else
    match limit with
    | some n =>
      if ¬(1 ≤ n ∧ n ≤ 10000) then .error (.invalidLimit n)
      else crypto_bars_fetch_parse resp
    | none => crypto_bars_fetch_parse resp

/-! ## Trading API (`alpaca_trading_api.py`) -/

/-- The field names of the `Asset` dataclass
(`Asset.__annotations__.keys()`). -/
def asset_field_names : List String :=
  ["id", "asset_class", "exchange", "symbol", "name", "status", "tradable",
   "marginable", "shortable", "easy_to_borrow", "fractionable", "attributes",
   "cusip", "maintenance_margin_requirement", "margin_requirement_long",
   "margin_requirement_short"]

/-- `get_assets` result: each `Asset(**payload)` call supplies every
annotated field (possibly `None`), so the dataclass call always succeeds
and the record is modelled as its keyword payload. -/
structure GetAssetsResponse where
  assets : List (List (String × Json))

/-- `get_assets` after the HTTP call: `if not isinstance(data, list):
raise JsonResponseError()`, then per item a `Mapping` check
(`InvalidAlpacaPayloadError` otherwise) and `payload[k] = row.get(k)`
for every `Asset` field. -/
def get_assets (resp : Response) : Except PyErr GetAssetsResponse := do
  let data ← alpaca_api_request resp
  match data with
  | .arr itemsL => do
    let assets ← forList (fun item =>
      match item with
      | .obj kvs => .ok (asset_field_names.map (fun k => (k, (kvs.lookup k).getD .null)))
      | _ => .error .invalidPayload) itemsL
    .ok ⟨assets⟩
  | _ => .error .jsonResponseError

/-- The field names of the `Order` dataclass
(`Order.__annotations__.keys()`). -/
def order_field_names : List String :=
  ["id", "client_order_id", "asset_id", "symbol", "asset_class",
   "filled_qty", "order_class", "time_in_force", "type", "status",
   "extended_hours", "created_at", "updated_at", "submitted_at",
   "filled_at", "expired_at", "canceled_at", "failed_at", "replaced_at",
   "replaced_by", "replaces", "notional", "qty", "filled_avg_price",
   "order_type", "side", "limit_price", "stop_price", "legs",
   "trail_percent", "trail_price", "hwm", "position_intent"]

/-- The `Order` dataclass fields without a default value: `Order(**payload)`
raises `TypeError` unless each of these appears as a payload key. -/
def order_required_fields : List String :=
  ["id", "client_order_id", "asset_id", "symbol", "asset_class",
   "filled_qty", "order_class", "time_in_force", "type", "status",
   "extended_hours", "created_at"]

/-- An `Order` record, modelled as its keyword payload (nothing in the
claims depends on its field structure beyond construction succeeding). -/
structure OrderModel where
  payload : List (String × Json)

/-- Keyword-call semantics of `Order(**payload)`: `TypeError` unless
every required field name occurs among the keys. -/
def order_init (payload : List (String × Json)) : Except PyErr OrderModel :=
  if order_required_fields.all (fun k => (payload.lookup k).isSome)
  then .ok ⟨payload⟩ else .error .typeError

/-- `get_all_orders` result. -/
structure AllOrdersResponse where
  orders : List OrderModel

/-- `get_all_orders` after the HTTP call: `if not isinstance(data, list):
raise JsonResponseError()`, then per item filter the allowed keys, map
`"class"` to `"asset_class"` (`None` or `str`, else
`InvalidAlpacaPayloadError`), and call `Order(**payload)`. -/
def get_all_orders (resp : Response) : Except PyErr AllOrdersResponse := do
  let data ← alpaca_api_request resp
  match data with
  | .arr itemsL => do
    let orders ← forList (fun item =>
      match item with
      | .obj kvs => do
        let payload := kvs.filter (fun kv => order_field_names.contains kv.1)
        let pl2 ←
          match (kvs.lookup "class").getD .null with
          | .null => .ok (payload.filter (fun kv => kv.1 != "asset_class")
              ++ [("asset_class", Json.null)])
          | .str s => .ok (payload.filter (fun kv => kv.1 != "asset_class")
              ++ [("asset_class", Json.str s)])
          | _ => .error .invalidPayload
        order_init pl2
      | _ => .error .invalidPayload) itemsL
    .ok ⟨orders⟩
  | _ => .error .jsonResponseError

/-! ## Symbol canonicalization (`_normalise_symbol`)

Python strings are sequences of Unicode code points; the canonicalizer
is modelled on lists of code points (`List ℕ`), with the ASCII fragments
of `str.upper` / `str.lower` / `str.strip` (ticker symbols and asset
class names are ASCII). -/

/-- A string literal as a list of code points. -/
def pyStr (s : String) : List ℕ := s.data.map Char.toNat

/-- ASCII fragment of `str.upper`, per code point. -/
def upperCode (n : ℕ) : ℕ := if 97 ≤ n ∧ n ≤ 122 then n - 32 else n

/-- ASCII fragment of `str.lower`, per code point. -/
def lowerCode (n : ℕ) : ℕ := if 65 ≤ n ∧ n ≤ 90 then n + 32 else n

/-- ASCII whitespace stripped by `str.strip()`. -/
def isSpaceCode (n : ℕ) : Bool :=
  n == 32 || n == 9 || n == 10 || n == 13 || n == 11 || n == 12

/-- Leading-whitespace trim. -/
def trimLeftCodes (l : List ℕ) : List ℕ := l.dropWhile isSpaceCode

/-- Trailing-whitespace trim. -/
def trimRightCodes (l : List ℕ) : List ℕ :=
  (l.reverse.dropWhile isSpaceCode).reverse

/-- `str.strip()`: whitespace removed from both ends. -/
def pyStripCodes (l : List ℕ) : List ℕ := trimRightCodes (trimLeftCodes l)

/-- Is the code point a `"/"` or `"-"` separator? (47 and 45). -/
def isSepCode (n : ℕ) : Bool := n == 47 || n == 45

/-- `_normalise_symbol`:
`cleaned = str(symbol).upper().strip()`; for the crypto asset class
additionally `cleaned.replace("/", "").replace("-", "")`. -/
def normalise_symbol (symbol asset : List ℕ) : List ℕ :=
  let cleaned := pyStripCodes (symbol.map upperCode)
  if asset.map lowerCode = pyStr "crypto" then
    cleaned.filter (fun n => !isSepCode n)
  else cleaned

/-! ## Quantity canonicalization (`_normalise_quantity`) -/

/-- The possible quantity arguments: `None`, a Python `int`, a `float`
(value as a rational), a `bool` (a numeric type in Python: `float(True)
= 1.0`), a string (which `float()` parses as a numeric literal or
rejects with `ValueError`), or a non-numeric, non-string object on
which `float()` raises `TypeError`. -/
inductive PyVal where
  | none
  | int (n : ℤ)
  | float (q : ℚ)
  | bool (b : Bool)
  | str (s : String)
  | object
deriving DecidableEq, Repr

/-- The ASCII whitespace `float()` strips around a string argument. -/
def pyWsChar (c : Char) : Bool :=
  c == ' ' || c == '\t' || c == '\n' || c == '\r' || c == '\x0b' || c == '\x0c'

/-- Value of a list of decimal digit characters. -/
def charDigitsVal (l : List Char) : ℕ :=
  l.foldl (fun acc c => acc * 10 + (c.toNat - 48)) 0

/-- `float(s)` on a string: Python's float-literal grammar for finite
decimal values — optional surrounding whitespace, an optional sign, a
digit string with an optional fractional part (at least one digit in
total), and an optional exponent.  `none` means the string does not
parse, i.e. `float()` raises `ValueError`.  (The special values
`inf`/`infinity`/`nan` and digit-group underscores are outside the
modelled grammar.) -/
def pyFloatStr (s : String) : Option ℚ :=
  let l1 := ((s.data.dropWhile pyWsChar).reverse.dropWhile pyWsChar).reverse
  let sl2 : ℤ × List Char :=
    match l1 with
    | '+' :: t => (1, t)
    | '-' :: t => (-1, t)
    | _ => (1, l1)
  let sgn := sl2.1
  let l2 := sl2.2
  let ip := l2.takeWhile Char.isDigit
  let l3 := l2.drop ip.length
  let fpl4 : List Char × List Char :=
    match l3 with
    | '.' :: t => (t.takeWhile Char.isDigit, t.drop (t.takeWhile Char.isDigit).length)
    | _ => ([], l3)
  let fp := fpl4.1
  let l4 := fpl4.2
  if ip.length + fp.length = 0 then Option.none
  else
    let m : ℤ :=
      sgn * Int.ofNat (charDigitsVal ip * Nat.pow 10 fp.length + charDigitsVal fp)
    match l4 with
    | [] => some (mkRat m (Nat.pow 10 fp.length))
    | c :: t =>
      if c = 'e' ∨ c = 'E' then
        let nt2 : Bool × List Char :=
          match t with
          | '+' :: r => (false, r)
          | '-' :: r => (true, r)
          | _ => (false, t)
        let ed := nt2.2.takeWhile Char.isDigit
        if ed.length = 0 ∨ nt2.2.drop ed.length ≠ [] then Option.none
        else if nt2.1 then
          some (mkRat m (Nat.pow 10 fp.length * Nat.pow 10 (charDigitsVal ed)))
        else some (mkRat (m * Int.ofNat (Nat.pow 10 (charDigitsVal ed)))
          (Nat.pow 10 fp.length))
      else Option.none

/-- `float(qty)`: numeric coercion.  `TypeError` for a non-numeric,
non-string object; on a string, the literal parse or `ValueError`. -/
def pyFloat : PyVal → Except PyErr ℚ
  | .none => .error .typeError
  | .int n => .ok (n : ℚ)
  | .float q => .ok q
  | .bool b => .ok (if b then 1 else 0)
  | .str s =>
    match pyFloatStr s with
    | some q => .ok q
    | Option.none => .error .valueError
  | .object => .error .typeError

/-- Python 3 `round` to the nearest integer, ties to even. -/
def pyRound (q : ℚ) : ℤ :=
  if q - (⌊q⌋ : ℚ) < 1 / 2 then ⌊q⌋
  else if 1 / 2 < q - (⌊q⌋ : ℚ) then ⌊q⌋ + 1
  else if ⌊q⌋ % 2 = 0 then ⌊q⌋ else ⌊q⌋ + 1

/-- `toString` of a natural, zero-padded on the left to six digits. -/
def pad6 (k : ℕ) : String :=
  let s := toString k
  ⟨List.replicate (6 - s.length) '0' ++ s.data⟩

/-- `s.rstrip(c)` for a single-character strip set. -/
def rstripChar (c : Char) (s : String) : String :=
  ⟨(s.data.reverse.dropWhile (fun d => d == c)).reverse⟩

/-- `f"{qty_value:.6f}".rstrip("0").rstrip(".")`: fixed-point rendering
with six decimals (rounding modelled half-to-even on the rational
value), then trailing zeros and a trailing dot removed.  Only reached
for values `≥ 0.0001`, hence rendered for non-negative values. -/
def fmt6_strip (q : ℚ) : String :=
  let n := (pyRound (q * 1000000)).toNat
  rstripChar '.' (rstripChar '0'
    ⟨(toString (n / 1000000)).data ++ '.' :: (pad6 (n % 1000000)).data⟩)

/-- The result type of `_normalise_quantity` (`str | int | None`). -/
inductive QtyResult where
  | none
  | str (s : String)
  | int (n : ℤ)
deriving DecidableEq, Repr

/-- `CRYPTO_MIN_ORDER_QTY = 0.0001`. -/
def CRYPTO_MIN_ORDER_QTY : ℚ := 1 / 10000

/-- The body of `_normalise_quantity` after the successful coercion
`qty_value = float(qty)`: non-positive values raise
`InvalidQuantityError`; for the crypto asset class values below
`CRYPTO_MIN_ORDER_QTY` raise `InsufficientCryptoQuantityError` and the
rest are formatted to a decimal string (`normalised or "0.0001"`);
other asset classes round to the nearest whole share count. -/
def normalise_quantity_num (q : ℚ) (asset : List ℕ) : Except PyErr QtyResult :=
  if q ≤ 0 then .error .invalidQuantity
  else if asset.map lowerCode = pyStr "crypto" then
    if q < CRYPTO_MIN_ORDER_QTY then
      .error (.insufficientCryptoQuantity CRYPTO_MIN_ORDER_QTY)
    else
      let normalised := fmt6_strip q
      .ok (.str (if normalised = "" then "0.0001" else normalised))
  else .ok (.int (pyRound q))

/-- `_normalise_quantity`: `None` is passed through; `float(qty)` with
ONLY `TypeError` caught and re-raised as `InvalidQuantityError` — a
`ValueError` from a non-numeric string propagates unchanged; then the
numeric body `normalise_quantity_num`. -/
def normalise_quantity (qty : PyVal) (asset : List ℕ) : Except PyErr QtyResult :=
  match qty with
  | .none => .ok .none
  | _ =>
    match pyFloat qty with
    | .error .typeError => .error .invalidQuantity
    | .error e => .error e
    | .ok q => normalise_quantity_num q asset

/-! ## Predicates used in theorem statements -/

/-- Is the value a JSON string? -/
def Json.isStrB : Json → Bool
  | .str _ => true
  | _ => false

/-- Does the value match the declared type `list[str]` of
`Trade.condition_codes`? -/
def Json.isStrList : Json → Bool
  | .arr xs => xs.all Json.isStrB
  | _ => false

/-- The payload value matches `_req_float`'s declared acceptance
(`int` or `float`, with Python `bool` counting as `int`) and coerces to
the given rational. -/
def FloatVal (o : Option Json) (q : ℚ) : Prop :=
  (∃ n : ℤ, o = some (.int n) ∧ q = (n : ℚ)) ∨ o = some (.num q) ∨
    (∃ b, o = some (.bool b) ∧ q = if b then 1 else 0)

/-- The payload value matches `_req_int`'s declared acceptance (an
`int`, a `bool`, or a `float` with no fractional part) and coerces to
the given integer. -/
def IntVal (o : Option Json) (z : ℤ) : Prop :=
  o = some (.int z) ∨ (∃ b, o = some (.bool b) ∧ z = if b then 1 else 0) ∨
    (∃ q : ℚ, o = some (.num q) ∧ q.den = 1 ∧ z = q.num)

/-- The computation does not raise the invalid-limit error. -/
def NoLimitErr (e : Except PyErr α) : Prop :=
  ∀ m, e ≠ .error (.invalidLimit m)

/-- A status-200 body whose `"bars"` key holds the given symbol-keyed
object. -/
def mkBarsPayload (kvs : List (String × Json)) : Json :=
  .obj [("bars", .obj kvs)]

/-! ## Generic lemmas about the `Except` embedding -/

theorem exbind_ok (a : α) (f : α → Except PyErr β) :
    (Except.ok a >>= f) = f a := rfl

theorem exbind_err (e : PyErr) (f : α → Except PyErr β) :
    ((Except.error e : Except PyErr α) >>= f) = .error e := rfl

theorem exBind_ok_inv {e : Except PyErr α} {f : α → Except PyErr β} {b : β}
    (h : (e >>= f) = .ok b) : ∃ a, e = .ok a ∧ f a = .ok b := by
  cases e with
  | error er => simp [exbind_err] at h
  | ok a => exact ⟨a, rfl, by simpa [exbind_ok] using h⟩

theorem exOk_bind_false {e : Except PyErr α} {f : α → Except PyErr β}
    (h : ∀ a, exOk (f a) = false) : exOk (e >>= f) = false := by
  cases e with
  | error er => simp [exbind_err, exOk]
  | ok a => simpa [exbind_ok] using h a

theorem exOk_catchTK (e : Except PyErr α) : exOk (catchTK e) = exOk e := by
  cases e with
  | ok a => rfl
  | error er => simp only [catchTK]; split <;> rfl

theorem request_ok_obj {resp : Response} {d : Json}
    (h : alpaca_api_request resp = .ok d) : ∃ kvs, d = .obj kvs := by
  unfold alpaca_api_request at h
  split at h
  · unfold safe_json at h
    rcases hj : resp.json with u | v
    · rw [hj] at h; simp at h
    · rw [hj] at h
      cases v <;> simp at h
      exact ⟨_, h.symm⟩
  · split at h
    · exact ⟨[], by simpa using h.symm⟩
    · simp at h

/-! ## C1 — status dispatch of `alpaca_api_request` -/

/-- C1: the spec's status-specific error taxonomy is never raised by the
code: for status 429 (and any other non-200/204 status), and whatever
the body decodes to, `alpaca_api_request` raises the generic
`UnknownError` carrying only the numeric code as text — never
`RateLimitError`, and the literal response body text is dropped.  The
claim is right about the intended taxonomy (the per-status classes are
defined, with their remediation messages, in the very same module) and
the code is the slip. -/
theorem c1_status_429_raises_unknown_not_rate_limit :
    (∀ (j : Except Unit Json) (t : String),
      alpaca_api_request ⟨429, j, t⟩ = .error (.unknownError "429"))
    ∧ ∀ b : String, PyErr.unknownError "429" ≠ PyErr.rateLimitError b := by
  refine ⟨fun j t => ?_, fun b h => PyErr.noConfusion h⟩
  simp only [alpaca_api_request]
  norm_num
  rfl

/-! ## C3 — outcome classification of one call -/

/-- C3: on status 200 the decoded JSON body is returned when it decodes
to an object, and `JsonResponseError` is raised when decoding fails or
the decoded value is not an object; on status 204 the empty object is
returned regardless of the body. -/
theorem c3_transport_outcome_classification :
    ∀ resp : Response,
      (resp.status_code = 200 →
        (∀ kvs, resp.json = .ok (.obj kvs) →
          alpaca_api_request resp = .ok (.obj kvs))
        ∧ (∀ u, resp.json = .error u →
          alpaca_api_request resp = .error .jsonResponseError)
        ∧ (∀ v, resp.json = .ok v → v.isObjB = false →
          alpaca_api_request resp = .error .jsonResponseError))
      ∧ (resp.status_code = 204 →
        alpaca_api_request resp = .ok (.obj [])) := by
  intro resp
  constructor
  · intro h200
    refine ⟨fun kvs hk => ?_, fun u hu => ?_, fun v hv hno => ?_⟩
    · simp [alpaca_api_request, h200, safe_json, hk]
    · simp [alpaca_api_request, h200, safe_json, hu]
    · simp only [alpaca_api_request, h200, if_true, if_pos, safe_json, hv]
      cases v <;> simp_all [Json.isObjB]
  · intro h204
    simp [alpaca_api_request, h204]

/-- Witness for C3 at concrete responses: a 200 response with an object
body is passed through, and a 204 response with a non-object body still
yields the empty object. -/
theorem c3_witness :
    alpaca_api_request ⟨200, .ok (.obj [("a", .int 1)]), ""⟩
        = .ok (.obj [("a", .int 1)])
    ∧ alpaca_api_request ⟨204, .ok (.int 7), "ignored"⟩ = .ok (.obj []) :=
  ⟨((c3_transport_outcome_classification ⟨200, .ok (.obj [("a", .int 1)]), ""⟩).1
      rfl).1 _ rfl,
   (c3_transport_outcome_classification ⟨204, .ok (.int 7), "ignored"⟩).2 rfl⟩

/-! ## C10 — concrete Bar round trip -/

/-- C10: on the concrete bar object of the spec's round-trip scenario,
`_parse_bar` produces `open = 100.0` (the integer JSON value 100 coerced
to float), `volume = 1000` (int), and the timestamp
2024-01-01T00:00:00 at UTC offset 0 — the full record is as stated. -/
theorem c10_bar_round_trip :
    parse_bar (.obj [("t", .str "2024-01-01T00:00:00Z"), ("o", .int 100),
        ("h", .int 101), ("l", .int 99), ("c", .num (201 / 2)),
        ("v", .int 1000), ("n", .int 10), ("vw", .num (501 / 5))])
      = .ok ⟨⟨2024, 1, 1, 0, 0, 0, 0, some 0⟩, 100, 101, 99, 201 / 2,
          1000, 10, 501 / 5⟩ := by
  rfl

/-! ## C2 — operations that can never return normally -/

/-- C2: `get_assets`, `get_all_orders`, `get_latest_bars` and
`crypto_get_historical_bars` never return normally, for every possible
response (in particular for every value `alpaca_api_request` can
deliver).  `get_assets`/`get_all_orders` require a list payload but the
invoker only ever delivers a JSON-object dict, so they raise
`JsonResponseError`; `get_latest_bars` and `crypto_get_historical_bars`
reach a dataclass construction missing required fields
(`currency` / `next_page_token`), whose `TypeError` the
`except (TypeError, KeyError)` boundary re-raises as `JsonResponseError`
(final two conjuncts). -/
theorem c2_operations_never_return :
    ∀ (resp : Response) (limit : Option ℤ) (sort : String),
      exOk (get_assets resp) = false
      ∧ exOk (get_all_orders resp) = false
      ∧ exOk (get_latest_bars resp) = false
      ∧ exOk (crypto_get_historical_bars resp limit sort) = false
      ∧ (∀ d, alpaca_api_request resp = .ok d →
          get_assets resp = .error .jsonResponseError
          ∧ get_all_orders resp = .error .jsonResponseError)
      ∧ (∀ p, LatestBars.init (some p) none = .error .typeError)
      ∧ catchTK (Except.error PyErr.typeError : Except PyErr LatestBars)
          = .error .jsonResponseError := by
  intro resp limit sort
  have hassets : ∀ d, alpaca_api_request resp = .ok d →
      get_assets resp = .error .jsonResponseError := by
    intro d h
    obtain ⟨kvs, rfl⟩ := request_ok_obj h
    unfold get_assets
    rw [h, exbind_ok]
  have horders : ∀ d, alpaca_api_request resp = .ok d →
      get_all_orders resp = .error .jsonResponseError := by
    intro d h
    obtain ⟨kvs, rfl⟩ := request_ok_obj h
    unfold get_all_orders
    rw [h, exbind_ok]
  have hlatest : exOk (get_latest_bars resp) = false := by
    unfold get_latest_bars
    refine exOk_bind_false (fun data => ?_)
    rw [exOk_catchTK]
    refine exOk_bind_false (fun barsVal => ?_)
    refine exOk_bind_false (fun kvs => ?_)
    refine exOk_bind_false (fun parsed => ?_)
    rfl
  have hcryptofetch : exOk (crypto_bars_fetch_parse resp) = false := by
    unfold crypto_bars_fetch_parse
    refine exOk_bind_false (fun data => ?_)
    rw [exOk_catchTK]
    refine exOk_bind_false (fun barsRaw => ?_)
    cases barsRaw <;> try rfl
    refine exOk_bind_false (fun parsed => ?_)
    rfl
  have hcrypto : exOk (crypto_get_historical_bars resp limit sort) = false := by
    unfold crypto_get_historical_bars
    split
    · rfl
    · cases limit with
      | none => exact hcryptofetch
      | some n =>
        split
        · split
          · rfl
          · exact hcryptofetch
        · exact hcryptofetch
  have hassets' : exOk (get_assets resp) = false := by
    cases h : alpaca_api_request resp with
    | error e =>
      unfold get_assets
      rw [h, exbind_err]
      rfl
    | ok d => rw [hassets d h]; rfl
  have horders' : exOk (get_all_orders resp) = false := by
    cases h : alpaca_api_request resp with
    | error e =>
      unfold get_all_orders
      rw [h, exbind_err]
      rfl
    | ok d => rw [horders d h]; rfl
  exact ⟨hassets', horders', hlatest, hcrypto,
    fun d h => ⟨hassets d h, horders d h⟩, fun p => rfl, rfl⟩

/-- Witness for C2 at a concrete 204 response (the invoker delivers the
empty dict): both list-expecting operations raise `JsonResponseError`
and `get_latest_bars` does not return. -/
theorem c2_witness :
    get_assets ⟨204, .ok .null, ""⟩ = .error .jsonResponseError
    ∧ get_all_orders ⟨204, .ok .null, ""⟩ = .error .jsonResponseError
    ∧ exOk (get_latest_bars ⟨204, .ok .null, ""⟩) = false :=
  ⟨((c2_operations_never_return ⟨204, .ok .null, ""⟩ none "asc").2.2.2.2.1
      (.obj []) rfl).1,
   ((c2_operations_never_return ⟨204, .ok .null, ""⟩ none "asc").2.2.2.2.1
      (.obj []) rfl).2,
   (c2_operations_never_return ⟨204, .ok .null, ""⟩ none "asc").2.2.1⟩

/-! ## C8 — crypto-bars parameter validation -/

theorem noLimit_ok (a : α) : NoLimitErr (Except.ok a : Except PyErr α) := by
  intro m h; simp at h

theorem noLimit_bind {e : Except PyErr α} {f : α → Except PyErr β}
    (he : NoLimitErr e) (hf : ∀ a, NoLimitErr (f a)) : NoLimitErr (e >>= f) := by
  cases e with
  | error er =>
    intro m h
    rw [exbind_err] at h
    have her : er = PyErr.invalidLimit m := by simpa using h
    exact he m (by rw [her])
  | ok a => intro m h; rw [exbind_ok] at h; exact hf a m h

theorem noLimit_catchTK {e : Except PyErr α} (he : NoLimitErr e) :
    NoLimitErr (catchTK e) := by
  cases e with
  | ok a => exact noLimit_ok a
  | error er =>
    intro m h
    simp only [catchTK] at h
    split at h
    · simp at h
    · exact he m h

theorem noLimit_forList {f : α → Except PyErr β} (hf : ∀ a, NoLimitErr (f a)) :
    ∀ l, NoLimitErr (forList f l) := by
  intro l
  induction l with
  | nil => exact noLimit_ok []
  | cons a t ih =>
    exact noLimit_bind (hf a) (fun b => noLimit_bind ih (fun bs => noLimit_ok _))

theorem noLimit_req_str (d : Json) (k : String) : NoLimitErr (req_str d k) := by
  intro m h
  unfold req_str at h
  split at h
  · split at h <;> simp_all
  · simp_all

theorem noLimit_req_float (d : Json) (k : String) : NoLimitErr (req_float d k) := by
  intro m h
  unfold req_float at h
  split at h
  · split at h <;> simp_all
  · simp_all

theorem noLimit_req_int (d : Json) (k : String) : NoLimitErr (req_int d k) := by
  intro m h
  unfold req_int at h
  split at h
  · split at h <;> try split at h
    all_goals simp_all
  · simp_all

theorem noLimit_fromisoformat (s : String) : NoLimitErr (fromisoformat s) := by
  intro m h; unfold fromisoformat at h; split at h <;> simp_all

theorem noLimit_parse_ts (v : Json) : NoLimitErr (parse_ts v) := by
  intro m h
  unfold parse_ts at h
  split at h
  · exact noLimit_fromisoformat _ m h
  · simp_all

theorem noLimit_pyGet (d : Json) (k : String) : NoLimitErr (pyGet d k) := by
  intro m h; unfold pyGet at h; split at h <;> simp_all

theorem noLimit_request (resp : Response) : NoLimitErr (alpaca_api_request resp) := by
  intro m h
  unfold alpaca_api_request safe_json at h
  split at h
  · split at h
    · simp_all
    · split at h <;> simp_all
  · split at h <;> simp_all

theorem noLimit_crypto_entry (b : Json) : NoLimitErr (parse_crypto_bar_entry b) := by
  unfold parse_crypto_bar_entry
  refine noLimit_bind (noLimit_req_str _ _) (fun t => ?_)
  refine noLimit_bind (noLimit_parse_ts _) (fun ts => ?_)
  refine noLimit_bind (noLimit_req_float _ _) (fun o => ?_)
  refine noLimit_bind (noLimit_req_float _ _) (fun hh => ?_)
  refine noLimit_bind (noLimit_req_float _ _) (fun l => ?_)
  refine noLimit_bind (noLimit_req_float _ _) (fun c => ?_)
  refine noLimit_bind (noLimit_req_float _ _) (fun v => ?_)
  refine noLimit_bind (noLimit_req_int _ _) (fun n => ?_)
  refine noLimit_bind (noLimit_req_float _ _) (fun vw => ?_)
  exact noLimit_ok _

theorem noLimit_crypto_list (raw : Json) : NoLimitErr (parse_crypto_bars_list raw) := by
  unfold parse_crypto_bars_list
  split
  · exact noLimit_ok _
  · split
    · exact noLimit_forList noLimit_crypto_entry _
    all_goals intro m h; simp_all

theorem noLimit_crypto_symbol (sv : String × Json) :
    NoLimitErr (crypto_symbol_bars sv) := by
  unfold crypto_symbol_bars
  obtain ⟨sym, v⟩ := sv
  cases v
  case arr xs =>
    exact noLimit_bind (noLimit_crypto_list _) (fun l => noLimit_ok _)
  all_goals intro m h; simp_all

theorem noLimit_crypto_fetch (resp : Response) :
    NoLimitErr (crypto_bars_fetch_parse resp) := by
  unfold crypto_bars_fetch_parse
  refine noLimit_bind (noLimit_request resp) (fun data => ?_)
  refine noLimit_catchTK ?_
  refine noLimit_bind (noLimit_pyGet _ _) (fun barsRaw => ?_)
  cases barsRaw
  case obj kvs =>
    refine noLimit_bind (noLimit_forList noLimit_crypto_symbol _)
      (fun parsed => ?_)
    intro m h; unfold HistoricalBars.init at h; simp_all
  all_goals intro m h; simp_all

/-- C8: `crypto_get_historical_bars` validates its parameters before the
HTTP request: a `sort` value other than `"asc"`/`"desc"` raises the
invalid-sort error naming the value, a provided `limit` outside
`[1, 10000]` raises the invalid-limit error, and a limit inside the
range never produces a limit error.  Each equation holds for every
`Response`, i.e. the validation outcome is independent of the network,
which expresses "before any network call". -/
theorem c8_crypto_validation :
    ∀ (resp : Response) (limit : Option ℤ) (sort : String),
      (¬(sort = "asc" ∨ sort = "desc") →
        crypto_get_historical_bars resp limit sort = .error (.invalidSort sort))
      ∧ (∀ n, (sort = "asc" ∨ sort = "desc") → limit = some n →
          ¬(1 ≤ n ∧ n ≤ 10000) →
          crypto_get_historical_bars resp limit sort = .error (.invalidLimit n))
      ∧ (∀ n m, limit = some n → 1 ≤ n → n ≤ 10000 →
          crypto_get_historical_bars resp limit sort
            ≠ .error (.invalidLimit m)) := by
  intro resp limit sort
  refine ⟨fun hs => ?_, fun n hs hl hr => ?_, fun n m hl h1 h2 => ?_⟩
  · unfold crypto_get_historical_bars
    rw [if_pos hs]
  · subst hl
    unfold crypto_get_historical_bars
    rw [if_neg (not_not_intro hs)]
    show (if ¬(1 ≤ n ∧ n ≤ 10000) then Except.error (PyErr.invalidLimit n)
        else crypto_bars_fetch_parse resp) = Except.error (PyErr.invalidLimit n)
    rw [if_pos hr]
  · subst hl
    unfold crypto_get_historical_bars
    by_cases hs : sort = "asc" ∨ sort = "desc"
    · rw [if_neg (not_not_intro hs)]
      show (if ¬(1 ≤ n ∧ n ≤ 10000) then Except.error (PyErr.invalidLimit n)
          else crypto_bars_fetch_parse resp) ≠ Except.error (PyErr.invalidLimit m)
      rw [if_neg (not_not_intro ⟨h1, h2⟩)]
      exact noLimit_crypto_fetch resp m
    · rw [if_pos hs]
      simp

/-- Witness for C8 at concrete arguments: `sort = "up"` is rejected,
`limit = 0` is rejected with the limit error, and `limit = 5` never
produces a limit error. -/
theorem c8_witness :
    crypto_get_historical_bars ⟨200, .ok (.obj []), ""⟩ (some 5) "up"
        = .error (.invalidSort "up")
    ∧ crypto_get_historical_bars ⟨200, .ok (.obj []), ""⟩ (some 0) "asc"
        = .error (.invalidLimit 0)
    ∧ crypto_get_historical_bars ⟨200, .ok (.obj []), ""⟩ (some 5) "asc"
        ≠ .error (.invalidLimit 5) :=
  ⟨(c8_crypto_validation ⟨200, .ok (.obj []), ""⟩ (some 5) "up").1 (by decide),
   (c8_crypto_validation ⟨200, .ok (.obj []), ""⟩ (some 0) "asc").2.1 0
     (by decide) rfl (by decide),
   (c8_crypto_validation ⟨200, .ok (.obj []), ""⟩ (some 5) "asc").2.2 5 5 rfl
     (by decide) (by decide)⟩

/-! ## C5 — symbol-keyed collection normalization -/

theorem forList_cons_inv {f : α → Except PyErr β} {a : α} {t : List α}
    {r : List β} (h : forList f (a :: t) = .ok r) :
    ∃ b bs, f a = .ok b ∧ forList f t = .ok bs ∧ r = b :: bs := by
  unfold forList at h
  obtain ⟨b, hb, h2⟩ := exBind_ok_inv h
  obtain ⟨bs, hbs, h3⟩ := exBind_ok_inv h2
  exact ⟨b, bs, hb, hbs, by simpa using h3.symm⟩

theorem forList_ok_spec {f : α → Except PyErr β} :
    ∀ (xs : List α) (ls : List β), forList f xs = .ok ls →
      ls.length = xs.length
      ∧ ∀ i (h1 : i < xs.length) (h2 : i < ls.length),
          f (xs.get ⟨i, h1⟩) = .ok (ls.get ⟨i, h2⟩) := by
  intro xs
  induction xs with
  | nil =>
    intro ls h
    unfold forList at h
    simp at h
    subst h
    exact ⟨rfl, fun i h1 h2 => absurd h1 (by simp)⟩
  | cons a t ih =>
    intro ls h
    obtain ⟨b, bs, hb, hbs, rfl⟩ := forList_cons_inv h
    obtain ⟨hlen, hget⟩ := ih bs hbs
    refine ⟨by simpa using hlen, fun i h1 h2 => ?_⟩
    cases i with
    | zero => simpa using hb
    | succ j =>
      have hj1 : j < t.length := by simpa using h1
      have hj2 : j < bs.length := by simpa using h2
      simpa using hget j hj1 hj2

/-- C5 (amended): each bars normalizer maps each symbol of the payload,
in server order, to a ONE-ELEMENT list whose sole element is the ordered
list of typed records parsed from that symbol's entries
(`parsed_bars = []; parsed_bars.append(...)`), not to the record list
itself, and the per-entry parses preserve server order.  The two paths
treat a `None` symbol value differently: the stock historical-bars
normalizer feeds it to `_parse_bars_list`, which yields the empty inner
record list (wrapped in the same one-element list) and never an error,
while the crypto normalizer's `isinstance(bar_list_obj, list)` check
rejects `None` (and every other non-list) with
`InvalidAlpacaPayloadError`, re-raised at the boundary as
`JsonResponseError`. -/
theorem c5_bars_mapping :
    (∀ (kvs : List (String × Json)) parsed,
      historical_bars_parsed (mkBarsPayload kvs) = .ok parsed →
        parsed.map Prod.fst = kvs.map Prod.fst
        ∧ ∀ sym v, (sym, v) ∈ kvs →
            ∃ l, parse_bars_list v = .ok l ∧ (sym, [l]) ∈ parsed)
    ∧ parse_bars_list .null = .ok []
    ∧ (∀ xs ls, parse_bars_list (.arr xs) = .ok ls →
        ls.length = xs.length
        ∧ ∀ i (h1 : i < xs.length) (h2 : i < ls.length),
            parse_bar_entry (xs.get ⟨i, h1⟩) = .ok (ls.get ⟨i, h2⟩))
    ∧ (∀ sym : String,
        crypto_symbol_bars (sym, Json.null) = .error .invalidPayload)
    ∧ (∀ (sym : String) (xs : List Json) (l : List CryptoBarDict),
        parse_crypto_bars_list (.arr xs) = .ok l →
        crypto_symbol_bars (sym, .arr xs) = .ok (sym, [l]))
    ∧ (∀ xs ls, parse_crypto_bars_list (.arr xs) = .ok ls →
        ls.length = xs.length
        ∧ ∀ i (h1 : i < xs.length) (h2 : i < ls.length),
            parse_crypto_bar_entry (xs.get ⟨i, h1⟩) = .ok (ls.get ⟨i, h2⟩))
    ∧ crypto_get_historical_bars
        ⟨200, .ok (mkBarsPayload [("BTC/USD", Json.null)]), ""⟩ none "asc"
        = .error .jsonResponseError := by
  refine ⟨?_, rfl, ?_, fun sym => rfl, fun sym xs l h => ?_, ?_, rfl⟩
  · intro kvs
    have hred : historical_bars_parsed (mkBarsPayload kvs)
        = forList (fun sv => do
            let l ← parse_bars_list sv.2
            Except.ok (sv.1, [l])) kvs := rfl
    rw [hred]
    clear hred
    induction kvs with
    | nil =>
      intro parsed h
      unfold forList at h
      simp at h
      subst h
      exact ⟨rfl, fun sym v hv => absurd hv (by simp)⟩
    | cons sv t ih =>
      intro parsed h
      obtain ⟨b, bs, hb, hbs, rfl⟩ := forList_cons_inv h
      obtain ⟨l, hl, hb2⟩ := exBind_ok_inv hb
      have hb3 : b = (sv.1, [l]) := by simpa using hb2.symm
      subst hb3
      obtain ⟨hmap, hmem⟩ := ih bs hbs
      refine ⟨by simpa using hmap, fun sym v hv => ?_⟩
      rcases List.mem_cons.mp hv with heq | htail
      · obtain ⟨sym', v'⟩ := sv
        obtain ⟨h1, h2⟩ := Prod.mk.injEq .. ▸ heq
        exact ⟨l, by rw [← h2] at hl; simpa using hl,
          by simp [← h1]⟩
      · obtain ⟨l', hl', hmem'⟩ := hmem sym v htail
        exact ⟨l', hl', by simp [hmem']⟩
  · intro xs ls h
    cases xs with
    | nil =>
      have hls : ls = [] := by
        have : parse_bars_list (.arr []) = .ok [] := rfl
        rw [this] at h
        simpa using h.symm
      subst hls
      exact ⟨rfl, fun i h1 h2 => absurd h1 (by simp)⟩
    | cons x t =>
      have hred : parse_bars_list (.arr (x :: t))
          = forList parse_bar_entry (x :: t) := rfl
      rw [hred] at h
      exact forList_ok_spec _ _ h
  · rw [show crypto_symbol_bars (sym, .arr xs)
        = (parse_crypto_bars_list (.arr xs) >>= fun l =>
            Except.ok (sym, [l])) from rfl,
      h, exbind_ok]
  · intro xs ls h
    cases xs with
    | nil =>
      have hls : ls = [] := by
        have : parse_crypto_bars_list (.arr []) = .ok [] := rfl
        rw [this] at h
        simpa using h.symm
      subst hls
      exact ⟨rfl, fun i h1 h2 => absurd h1 (by simp)⟩
    | cons x t =>
      have hred : parse_crypto_bars_list (.arr (x :: t))
          = forList parse_crypto_bar_entry (x :: t) := rfl
      rw [hred] at h
      exact forList_ok_spec _ _ h

/-- Counterexample to C5 as stated: for the payload
`{"bars": {"AAPL": null}}` the mapping built by `get_historical_bars`
sends `"AAPL"` to `[[]]` — a one-element list containing the empty list
— which is not the empty list the claim promises for a `None` symbol. -/
theorem c5_counterexample :
    ((historical_bars_parsed (mkBarsPayload [("AAPL", Json.null)])).toOption.bind
      (fun p => p.lookup "AAPL")) = some [[]]
    ∧ ([[]] : List (List BarDict)) ≠ [] := by
  refine ⟨rfl, by simp⟩

/-- Witness for C5 (amended) at concrete payloads: for
`{"bars": {"B": null}}` the stock mapping keeps the symbol order and
sends `"B"` to the one-element list wrapping the empty record list, and
the crypto per-symbol parse wraps an (empty) list value the same way. -/
theorem c5_witness :
    [("B", ([[]] : List (List BarDict)))].map Prod.fst
        = [("B", Json.null)].map Prod.fst
    ∧ (∃ l, parse_bars_list Json.null = .ok l
        ∧ ("B", [l]) ∈ [("B", ([[]] : List (List BarDict)))])
    ∧ crypto_symbol_bars ("C", .arr []) = .ok ("C", [[]]) := by
  have h := c5_bars_mapping.1 [("B", Json.null)] [("B", [[]])] rfl
  exact ⟨h.1, h.2 "B" Json.null (by simp),
    c5_bars_mapping.2.2.2.2.1 "C" [] [] rfl⟩

/-! ## C4 — required-field typing in the normalizers -/

theorem req_str_ok {d : Json} {k : String} {s : String}
    (h : req_str d k = .ok s) : jlook d k = some (.str s) := by
  unfold req_str at h
  split at h
  · split at h <;> simp_all [jlook]
  · simp_all

theorem req_float_ok {d : Json} {k : String} {q : ℚ}
    (h : req_float d k = .ok q) : FloatVal (jlook d k) q := by
  unfold req_float at h
  split at h
  case h_1 kvs =>
    show FloatVal (kvs.lookup k) q
    cases hl : kvs.lookup k with
    | none => rw [hl] at h; simp at h
    | some v =>
      rw [hl] at h
      cases v <;> simp at h
      case bool b => exact Or.inr (Or.inr ⟨b, rfl, h.symm⟩)
      case int n => exact Or.inl ⟨n, rfl, h.symm⟩
      case num q' => exact Or.inr (Or.inl (by rw [h]))
  · simp_all

theorem req_int_ok {d : Json} {k : String} {z : ℤ}
    (h : req_int d k = .ok z) : IntVal (jlook d k) z := by
  unfold req_int at h
  split at h
  case h_1 kvs =>
    show IntVal (kvs.lookup k) z
    cases hl : kvs.lookup k with
    | none => rw [hl] at h; simp at h
    | some v =>
      rw [hl] at h
      cases v <;> simp at h
      case bool b => exact Or.inr (Or.inl ⟨b, rfl, h.symm⟩)
      case int n => exact Or.inl (by rw [h])
      case num q' =>
        split at h <;> simp at h
        exact Or.inr (Or.inr ⟨q', rfl, by assumption, h.symm⟩)
  · simp_all

theorem pyGet_ok {d : Json} {k : String} {v : Json}
    (h : pyGet d k = .ok v) : v = (jlook d k).getD .null := by
  unfold pyGet at h
  split at h <;> simp_all [jlook]

theorem pyGetD_ok {d : Json} {k : String} {dflt v : Json}
    (h : pyGetD d k dflt = .ok v) : v = (jlook d k).getD dflt := by
  unfold pyGetD at h
  split at h <;> simp_all [jlook]

/-- C4 (amended): whenever `_parse_trade` returns a record, the
timestamp, exchange, price, size, trade-id and timezone fields were
extracted by the type-strict accessors (so their payload values matched
the declared types), EXCEPT that the required `condition_codes` field is
copied from the payload without any type check (defaulting to `[]` when
the key is absent) and the required `trade_update` field is silently
filled with the default `"N/A"` whenever the `"u"` key is absent or its
value is falsy. -/
theorem c4_trade_field_typing :
    ∀ (raw : Json) (tr : Trade), parse_trade raw = .ok tr →
      (∃ s, jlook raw "t" = some (.str s)
          ∧ fromisoformat (pyReplaceZ s) = .ok tr.datetime)
      ∧ jlook raw "x" = some (.str tr.exchange)
      ∧ FloatVal (jlook raw "p") tr.price
      ∧ IntVal (jlook raw "s") tr.size
      ∧ IntVal (jlook raw "i") tr.trade_id
      ∧ tr.condition_codes = (jlook raw "c").getD (.arr [])
      ∧ jlook raw "z" = some (.str tr.timezone)
      ∧ (((jlook raw "u").getD .null).truthy = true →
          jlook raw "u" = some (.str tr.trade_update))
      ∧ (((jlook raw "u").getD .null).truthy = false →
          tr.trade_update = "N/A") := by
  intro raw tr h
  unfold parse_trade at h
  obtain ⟨t, ht, h⟩ := exBind_ok_inv h
  obtain ⟨ts, hts, h⟩ := exBind_ok_inv h
  obtain ⟨x, hx, h⟩ := exBind_ok_inv h
  obtain ⟨p, hp, h⟩ := exBind_ok_inv h
  obtain ⟨s, hs, h⟩ := exBind_ok_inv h
  obtain ⟨i, hi, h⟩ := exBind_ok_inv h
  obtain ⟨c, hc, h⟩ := exBind_ok_inv h
  obtain ⟨z, hz, h⟩ := exBind_ok_inv h
  obtain ⟨uV, hu, h⟩ := exBind_ok_inv h
  obtain ⟨u, huu, h⟩ := exBind_ok_inv h
  have htr : Trade.mk ts x p s i c z u = tr := by simpa using h
  subst htr
  have huV : uV = (jlook raw "u").getD .null := pyGet_ok hu
  refine ⟨⟨t, req_str_ok ht, hts⟩, req_str_ok hx, req_float_ok hp,
    req_int_ok hs, req_int_ok hi, pyGetD_ok hc, req_str_ok hz,
    fun htru => ?_, fun hfal => ?_⟩
  · rw [← huV] at htru
    unfold trade_update_of at huu
    rw [if_pos htru] at huu
    exact req_str_ok huu
  · rw [← huV] at hfal
    unfold trade_update_of at huu
    rw [if_neg (by simp [hfal])] at huu
    simpa using huu.symm

/-- Counterexample to C4 as stated: on a status-200 trade object with
`"c": 5` and no `"u"` key, `_parse_trade` returns a record (raises no
payload error) whose required `condition_codes` value `5` does not match
its declared type `list[str]`, and whose required `trade_update` field
was silently filled with the default `"N/A"`. -/
theorem c4_counterexample :
    (parse_trade (.obj [("t", .str "2024-01-01T00:00:00Z"), ("x", .str "V"),
        ("p", .num (3 / 2)), ("s", .int 10), ("i", .int 7), ("c", .int 5),
        ("z", .str "EST")])).toOption.map
        (fun tr => (tr.condition_codes.isStrList, tr.trade_update))
      = some (false, "N/A") := rfl

/-- Witness for C4 (amended) at a fully-typed concrete trade object:
the price was extracted from a matching payload value and the truthy
`"u"` key really holds the returned `trade_update` string. -/
theorem c4_witness :
    FloatVal (jlook (.obj [("t", .str "2024-01-01T00:00:00Z"),
        ("x", .str "V"), ("p", .num (3 / 2)), ("s", .int 10), ("i", .int 7),
        ("c", .arr [.str "@"]), ("z", .str "EST"), ("u", .str "upd")]) "p")
      (3 / 2)
    ∧ jlook (.obj [("t", .str "2024-01-01T00:00:00Z"),
        ("x", .str "V"), ("p", .num (3 / 2)), ("s", .int 10), ("i", .int 7),
        ("c", .arr [.str "@"]), ("z", .str "EST"), ("u", .str "upd")]) "u"
      = some (.str "upd") := by
  have h := c4_trade_field_typing
    (.obj [("t", .str "2024-01-01T00:00:00Z"),
        ("x", .str "V"), ("p", .num (3 / 2)), ("s", .int 10), ("i", .int 7),
        ("c", .arr [.str "@"]), ("z", .str "EST"), ("u", .str "upd")])
    ⟨⟨2024, 1, 1, 0, 0, 0, 0, some 0⟩, "V", 3 / 2, 10, 7, .arr [.str "@"],
      "EST", "upd"⟩ rfl
  exact ⟨h.2.2.1, h.2.2.2.2.2.2.2.1 rfl⟩

/-! ## C6 and C7 — quantity canonicalization -/

theorem pyRound_close (q : ℚ) : |(pyRound q : ℚ) - q| ≤ 1 / 2 := by
  have h0 : (⌊q⌋ : ℚ) ≤ q := Int.floor_le q
  have h1 : q < (⌊q⌋ : ℚ) + 1 := Int.lt_floor_add_one q
  unfold pyRound
  split
  case isTrue hlt =>
    rw [abs_sub_comm, abs_of_nonneg (by linarith)]
    linarith
  case isFalse hge =>
    split
    case isTrue hgt =>
      rw [abs_of_nonneg (by push_cast; linarith)]
      push_cast
      linarith
    case isFalse hle =>
      have heq : q - (⌊q⌋ : ℚ) = 1 / 2 :=
        le_antisymm (not_lt.mp hle) (not_lt.mp hge)
      split
      · rw [abs_sub_comm, abs_of_nonneg (by linarith)]
        linarith
      · rw [abs_of_nonneg (by push_cast; linarith)]
        push_cast
        linarith

theorem pyRound_nearest (q : ℚ) (z : ℤ) :
    |(pyRound q : ℚ) - q| ≤ |(z : ℚ) - q| := by
  by_cases hz : z = pyRound q
  · rw [hz]
  · have hne : z - pyRound q ≠ 0 := sub_ne_zero.mpr hz
    have hd : (1 : ℤ) ≤ |z - pyRound q| := Int.one_le_abs hne
    have hdq : (1 : ℚ) ≤ |(z : ℚ) - (pyRound q : ℚ)| := by
      exact_mod_cast hd
    have htri : |(z : ℚ) - (pyRound q : ℚ)|
        ≤ |(z : ℚ) - q| + |q - (pyRound q : ℚ)| := abs_sub_le _ _ _
    have hc : |q - (pyRound q : ℚ)| ≤ 1 / 2 := by
      rw [abs_sub_comm]; exact pyRound_close q
    have hg := pyRound_close q
    linarith

theorem nq_float_red (q : ℚ) (asset : List ℕ) :
    normalise_quantity (.float q) asset
      = (if q ≤ 0 then Except.error PyErr.invalidQuantity
        else if asset.map lowerCode = pyStr "crypto" then
          (if q < CRYPTO_MIN_ORDER_QTY then
            Except.error (.insufficientCryptoQuantity CRYPTO_MIN_ORDER_QTY)
          else .ok (.str (if fmt6_strip q = "" then "0.0001" else fmt6_strip q)))
        else .ok (.int (pyRound q))) := rfl

/-- C6 (amended): for the crypto asset class, every POSITIVE input
strictly below `0.0001` raises the minimum-quantity error
(`InsufficientCryptoQuantityError`), while non-positive inputs — also
strictly below `0.0001` — raise `InvalidQuantityError` instead; for
non-crypto asset classes every positive input returns its value rounded
by Python's `round` (ties to even), which is a nearest whole share
count: no integer is strictly closer to the input. -/
theorem c6_quantity_canonicalization :
    ∀ (q : ℚ) (asset : List ℕ),
      (asset.map lowerCode = pyStr "crypto" → 0 < q →
        q < CRYPTO_MIN_ORDER_QTY →
        normalise_quantity (.float q) asset
          = .error (.insufficientCryptoQuantity CRYPTO_MIN_ORDER_QTY))
      ∧ (asset.map lowerCode = pyStr "crypto" → q ≤ 0 →
        normalise_quantity (.float q) asset = .error .invalidQuantity)
      ∧ (¬(asset.map lowerCode = pyStr "crypto") → 0 < q →
        normalise_quantity (.float q) asset = .ok (.int (pyRound q))
        ∧ ∀ z : ℤ, |(pyRound q : ℚ) - q| ≤ |(z : ℚ) - q|) := by
  intro q asset
  refine ⟨fun hcr hpos hlt => ?_, fun hcr hnp => ?_, fun hncr hpos => ?_⟩
  · rw [nq_float_red, if_neg (not_le.mpr hpos), if_pos hcr, if_pos hlt]
  · rw [nq_float_red, if_pos hnp]
  · exact ⟨by rw [nq_float_red, if_neg (not_le.mpr hpos), if_neg hncr],
      fun z => pyRound_nearest q z⟩

/-- Counterexample to C6 as stated: the crypto input `0` is strictly
less than `0.0001`, yet `_normalise_quantity` raises
`InvalidQuantityError`, not the minimum-quantity error the claim
promises for every such input. -/
theorem c6_counterexample :
    normalise_quantity (.float 0) (pyStr "crypto") = .error .invalidQuantity
    ∧ normalise_quantity (.float 0) (pyStr "crypto")
        ≠ .error (.insufficientCryptoQuantity CRYPTO_MIN_ORDER_QTY) := by
  refine ⟨rfl, ?_⟩
  rw [show normalise_quantity (.float 0) (pyStr "crypto")
      = Except.error PyErr.invalidQuantity from rfl]
  simp [CRYPTO_MIN_ORDER_QTY]

/-- Witness for C6 (amended) at concrete inputs: the positive crypto
quantity `0.00005` hits the minimum-quantity error; the non-crypto
quantity `1.5` rounds to a whole share count at least as close as the
integer `2`. -/
theorem c6_witness :
    normalise_quantity (.float (1 / 20000)) (pyStr "crypto")
        = .error (.insufficientCryptoQuantity CRYPTO_MIN_ORDER_QTY)
    ∧ normalise_quantity (.float (3 / 2)) (pyStr "us_equity")
        = .ok (.int (pyRound (3 / 2)))
    ∧ |(pyRound (3 / 2) : ℚ) - 3 / 2| ≤ |((2 : ℤ) : ℚ) - 3 / 2| := by
  refine ⟨(c6_quantity_canonicalization (1 / 20000) (pyStr "crypto")).1
      (by decide) (by norm_num) (by norm_num [CRYPTO_MIN_ORDER_QTY]), ?_, ?_⟩
  · exact ((c6_quantity_canonicalization (3 / 2) (pyStr "us_equity")).2.2
      (by decide) (by norm_num)).1
  · exact ((c6_quantity_canonicalization (3 / 2) (pyStr "us_equity")).2.2
      (by decide) (by norm_num)).2 2

/-- Reduction of `_normalise_quantity` under a successful coercion:
for a non-`None` input on which `float()` returns a value, the function
continues with the numeric body. -/
theorem nq_red_of_ok {v : PyVal} {q : ℚ} (asset : List ℕ)
    (hv : v ≠ PyVal.none) (h : pyFloat v = .ok q) :
    normalise_quantity v asset = normalise_quantity_num q asset := by
  unfold normalise_quantity
  split
  · simp_all
  · rw [h]

/-- Reduction of `_normalise_quantity` under a `ValueError` from the
coercion: only `TypeError` is caught, so the `ValueError` propagates. -/
theorem nq_red_of_valueError {v : PyVal} (asset : List ℕ)
    (hv : v ≠ PyVal.none) (h : pyFloat v = .error .valueError) :
    normalise_quantity v asset = .error .valueError := by
  unfold normalise_quantity
  split
  · simp_all
  · rw [h]

/-- C7 (amended): every quantity input on which `float()` raises
`TypeError` — i.e. every non-numeric, non-string input — other than
`None` fails with the quantity type error (`InvalidQuantityError`); the
input `None` is returned unchanged without any error; every numeric
non-positive input raises `InvalidQuantityError`; a string input is
coerced by `float()`: a string that does not parse as a numeric literal
fails with the coercion's own `ValueError`, which the code does NOT
convert (only `TypeError` is caught), and a string that parses behaves
exactly like the number it denotes.  The function is pure input
validation — it takes no `Response` — so all of this happens before any
network call. -/
theorem c7_quantity_type_errors :
    ∀ (v : PyVal) (asset : List ℕ),
      (pyFloat v = .error .typeError → v ≠ .none →
        normalise_quantity v asset = .error .invalidQuantity)
      ∧ normalise_quantity .none asset = .ok .none
      ∧ (∀ q, pyFloat v = .ok q → q ≤ 0 →
        normalise_quantity v asset = .error .invalidQuantity)
      ∧ (∀ s, pyFloat (.str s) = .error .valueError →
        normalise_quantity (.str s) asset = .error .valueError)
      ∧ (∀ s q, pyFloat (.str s) = .ok q →
        normalise_quantity (.str s) asset
          = normalise_quantity (.float q) asset) := by
  intro v asset
  have hnum : ∀ q : ℚ, q ≤ 0 →
      normalise_quantity_num q asset = .error .invalidQuantity := by
    intro q hq0
    unfold normalise_quantity_num
    rw [if_pos hq0]
  refine ⟨fun herr hne => ?_, rfl, fun q hok hq0 => ?_, fun s hval => ?_,
    fun s q hok => ?_⟩
  · cases v with
    | none => exact absurd rfl hne
    | int n => simp [pyFloat] at herr
    | float r => simp [pyFloat] at herr
    | bool b => simp [pyFloat] at herr
    | str s =>
      rw [show pyFloat (.str s) = (match pyFloatStr s with
          | some q => Except.ok q
          | Option.none => Except.error PyErr.valueError) from rfl] at herr
      cases hp : pyFloatStr s <;> rw [hp] at herr <;> simp at herr
    | object => rfl
  · have hvn : v ≠ PyVal.none := by
      intro hv
      rw [hv] at hok
      simp [pyFloat] at hok
    rw [nq_red_of_ok asset hvn hok]
    exact hnum q hq0
  · exact nq_red_of_valueError asset (by simp) hval
  · rw [nq_red_of_ok asset (by simp) hok,
      nq_red_of_ok asset (by simp) (show pyFloat (.float q) = .ok q from rfl)]

/-- Counterexample to C7 as stated: `None` is not numeric (`float(None)`
raises `TypeError`), yet `_normalise_quantity` returns `None` normally
instead of failing with the quantity type error.  (Non-numeric strings
break the claim too: `float("abc")` raises `ValueError`, which the
`except TypeError` clause does not catch, so the failure is a bare
`ValueError`, not `InvalidQuantityError`.) -/
theorem c7_counterexample :
    (pyFloat PyVal.none = .error .typeError
    ∧ normalise_quantity PyVal.none (pyStr "us_equity") = .ok QtyResult.none
    ∧ normalise_quantity PyVal.none (pyStr "us_equity")
        ≠ .error .invalidQuantity)
    ∧ normalise_quantity (.str "abc") (pyStr "us_equity")
        = .error .valueError := by
  refine ⟨⟨rfl, rfl, ?_⟩, rfl⟩
  rw [show normalise_quantity PyVal.none (pyStr "us_equity")
      = Except.ok QtyResult.none from rfl]
  simp

/-- Witness for C7 (amended) at concrete inputs: a non-numeric object
fails with `InvalidQuantityError`; so does the non-positive numeric
input `-1`; the non-numeric string `"abc"` fails with the uncaught
`ValueError`; and the numeric string `"1.5"` behaves exactly like the
number `1.5`. -/
theorem c7_witness :
    normalise_quantity PyVal.object (pyStr "us_equity")
        = .error .invalidQuantity
    ∧ normalise_quantity (.float (-1)) (pyStr "us_equity")
        = .error .invalidQuantity
    ∧ normalise_quantity (.str "abc") (pyStr "us_equity")
        = .error .valueError
    ∧ normalise_quantity (.str "1.5") (pyStr "us_equity")
        = normalise_quantity (.float (mkRat 3 2)) (pyStr "us_equity") :=
  ⟨(c7_quantity_type_errors PyVal.object (pyStr "us_equity")).1 rfl
      (by decide),
   (c7_quantity_type_errors (.float (-1)) (pyStr "us_equity")).2.2.1 (-1) rfl
      (by norm_num),
   (c7_quantity_type_errors (.str "abc") (pyStr "us_equity")).2.2.2.1 "abc"
      rfl,
   (c7_quantity_type_errors (.str "1.5") (pyStr "us_equity")).2.2.2.2 "1.5"
      (mkRat 3 2) (by rfl)⟩


/-! ## C9 — symbol canonicalization idempotence -/

theorem upperCode_not_lower (n : ℕ) : ¬(97 ≤ upperCode n ∧ upperCode n ≤ 122) := by
  unfold upperCode; split <;> omega

theorem upperCode_idem (n : ℕ) : upperCode (upperCode n) = upperCode n := by
  show (if 97 ≤ upperCode n ∧ upperCode n ≤ 122 then upperCode n - 32
      else upperCode n) = upperCode n
  rw [if_neg (upperCode_not_lower n)]

theorem map_upper_fixed {l : List ℕ} (h : ∀ c ∈ l, upperCode c = c) :
    l.map upperCode = l := by
  induction l with
  | nil => rfl
  | cons a t ih =>
    simp only [List.map_cons]
    rw [h a (by simp), ih (fun c hc => h c (by simp [hc]))]

theorem mem_map_upper_fixed {l : List ℕ} {c : ℕ}
    (h : c ∈ l.map upperCode) : upperCode c = c := by
  obtain ⟨x, _, rfl⟩ := List.mem_map.mp h
  exact upperCode_idem x

theorem dropWhile_idem (p : α → Bool) (l : List α) :
    (l.dropWhile p).dropWhile p = l.dropWhile p := by
  induction l with
  | nil => rfl
  | cons a t ih =>
    by_cases h : p a
    · rw [List.dropWhile_cons_of_pos h]; exact ih
    · rw [List.dropWhile_cons_of_neg h, List.dropWhile_cons_of_neg h]

theorem trimRight_trimRight (l : List ℕ) :
    trimRightCodes (trimRightCodes l) = trimRightCodes l := by
  unfold trimRightCodes
  rw [List.reverse_reverse, dropWhile_idem]

theorem trimLeft_trimRight_trimLeft (l : List ℕ) :
    trimLeftCodes (trimRightCodes (trimLeftCodes l))
      = trimRightCodes (trimLeftCodes l) := by
  cases hu : trimLeftCodes l with
  | nil => simp [trimRightCodes, trimLeftCodes]
  | cons a t =>
    have ha : isSpaceCode a = false := by
      have h := List.head?_dropWhile_not isSpaceCode l
      unfold trimLeftCodes at hu
      rw [hu] at h
      simpa using h
    unfold trimRightCodes trimLeftCodes
    rw [List.reverse_cons, List.dropWhile_append]
    by_cases he : ((t.reverse.dropWhile isSpaceCode).isEmpty : Bool)
    · rw [if_pos he]
      simp [ha]
    · rw [if_neg he]
      rw [List.reverse_append]
      simp [ha]

theorem pyStrip_idem (l : List ℕ) :
    pyStripCodes (pyStripCodes l) = pyStripCodes l := by
  unfold pyStripCodes
  rw [trimLeft_trimRight_trimLeft l, trimRight_trimRight]

theorem pyStrip_subset {l : List ℕ} {c : ℕ} (h : c ∈ pyStripCodes l) :
    c ∈ l := by
  unfold pyStripCodes trimRightCodes trimLeftCodes at h
  rw [List.mem_reverse] at h
  have h2 := List.dropWhile_subset isSpaceCode h
  rw [List.mem_reverse] at h2
  exact List.dropWhile_subset isSpaceCode h2

theorem ns_red (x a : List ℕ) :
    normalise_symbol x a
      = (if a.map lowerCode = pyStr "crypto"
        then (pyStripCodes (x.map upperCode)).filter (fun n => !isSepCode n)
        else pyStripCodes (x.map upperCode)) := rfl

/-- C9 (amended): symbol canonicalization is idempotent for non-crypto
asset classes; for the crypto asset class a second application equals
whitespace-trimming the first result (separator removal can expose
interior whitespace at the ends), so it is idempotent exactly on symbols
whose canonical form carries no leading or trailing whitespace. -/
theorem c9_symbol_canonicalization :
    ∀ (s a : List ℕ),
      (¬(a.map lowerCode = pyStr "crypto") →
        normalise_symbol (normalise_symbol s a) a = normalise_symbol s a)
      ∧ (a.map lowerCode = pyStr "crypto" →
        normalise_symbol (normalise_symbol s a) a
          = pyStripCodes (normalise_symbol s a))
      ∧ (a.map lowerCode = pyStr "crypto" →
        pyStripCodes (normalise_symbol s a) = normalise_symbol s a →
        normalise_symbol (normalise_symbol s a) a = normalise_symbol s a) := by
  intro s a
  by_cases hcr : a.map lowerCode = pyStr "crypto"
  · have hf : normalise_symbol s a
        = (pyStripCodes (s.map upperCode)).filter (fun n => !isSepCode n) := by
      rw [ns_red, if_pos hcr]
    have hfixed : ∀ c ∈ normalise_symbol s a, upperCode c = c := by
      intro c hc
      rw [hf] at hc
      exact mem_map_upper_fixed (pyStrip_subset (List.mem_filter.mp hc).1)
    have hsep : ∀ c ∈ pyStripCodes (normalise_symbol s a), (!isSepCode c) = true := by
      intro c hc
      have hc2 : c ∈ normalise_symbol s a := pyStrip_subset hc
      rw [hf] at hc2
      exact (List.mem_filter.mp hc2).2
    have hsecond : normalise_symbol (normalise_symbol s a) a
        = pyStripCodes (normalise_symbol s a) := by
      rw [ns_red, if_pos hcr, map_upper_fixed hfixed]
      exact List.filter_eq_self.mpr hsep
    exact ⟨fun hn => absurd hcr hn, fun _ => hsecond,
      fun _ heq => by rw [hsecond, heq]⟩
  · have hfirst : normalise_symbol (normalise_symbol s a) a
        = normalise_symbol s a := by
      rw [ns_red, if_neg hcr]
      conv_rhs => rw [ns_red, if_neg hcr]
      have hfixed : ∀ c ∈ pyStripCodes (s.map upperCode), upperCode c = c :=
        fun c hc => mem_map_upper_fixed (pyStrip_subset hc)
      rw [show normalise_symbol s a = pyStripCodes (s.map upperCode) from by
            rw [ns_red, if_neg hcr],
        map_upper_fixed hfixed, pyStrip_idem]
    exact ⟨fun _ => hfirst, fun hc => absurd hc hcr, fun hc _ => absurd hc hcr⟩

/-- Counterexample to C9 as stated: for the crypto symbol `"/ A"`, one
application yields `" A"` (stripping happens before the `"/"` is
removed, exposing a leading space) and a second application yields
`"A"`, so canonicalization is not idempotent. -/
theorem c9_counterexample :
    normalise_symbol (normalise_symbol (pyStr "/ A") (pyStr "crypto"))
        (pyStr "crypto")
      ≠ normalise_symbol (pyStr "/ A") (pyStr "crypto") := by
  decide

/-- Witness for C9 (amended) at concrete symbols: the equity symbol
`" aapl "` and the crypto symbol `"btc/usd"` (whose canonical form has
no boundary whitespace) are both fixed by a second application. -/
theorem c9_witness :
    normalise_symbol (normalise_symbol (pyStr " aapl ") (pyStr "us_equity"))
        (pyStr "us_equity")
      = normalise_symbol (pyStr " aapl ") (pyStr "us_equity")
    ∧ normalise_symbol (normalise_symbol (pyStr "btc/usd") (pyStr "CRYPTO"))
        (pyStr "CRYPTO")
      = normalise_symbol (pyStr "btc/usd") (pyStr "CRYPTO") :=
  ⟨(c9_symbol_canonicalization (pyStr " aapl ") (pyStr "us_equity")).1
      (by decide),
   (c9_symbol_canonicalization (pyStr "btc/usd") (pyStr "CRYPTO")).2.2
      (by decide) (by decide)⟩
